import Mathlib

/-!
Verification of the AI-Bid-Assistant python backend against its
natural-language specification.

Each Python function named in the claims is shallowly embedded as an
executable Lean definition translated from the source file it lives in:

* `python-backend/workflows/repository.py`   — `WorkflowStateRepository`
* `python-backend/workflows/serialization.py`— workflow-state JSON codec
* `python-backend/agents/agent_manager.py`   — `AgentWorkflowManager`
* `python-backend/agents/error_handling.py`  — `RetryConfig`
* `python-backend/memory/memory_manager.py`  — `MemoryManager.store_feedback`
* `python-backend/memory/models.py`          — `UserFeedback.is_positive/negative`
* `python-backend/agents/compliance_verification_agent.py`
* `python-backend/agents/quality_control.py` — `QualityScorer`
* `python-backend/agents/tender_analysis_agent.py`

Modelling conventions: Python `float` arithmetic is modelled over `ℚ`
(all claim-relevant computations are exact), UUIDs are opaque `Nat`
identifiers, wall-clock times are seconds as `Int`, Python dicts are
association lists in insertion order, and `random.random()` is an
explicit parameter.
-/

namespace BidAssistant

/-! ### `agents/error_handling.py` — `RetryConfig` -/

/-- `RetryConfig.__init__` defaults, from `error_handling.py`. -/
structure RetryConfig where
  max_retries : Nat := 3
  initial_delay : ℚ := 1
  max_delay : ℚ := 60
  exponential_base : ℚ := 2
  jitter : Bool := true
deriving Repr, DecidableEq

/-- `RetryConfig.get_delay(attempt)`: `delay = min(initial_delay *
exponential_base ** attempt, max_delay)`, then, when `jitter` is set,
`delay = delay * (0.5 + random.random() * 0.5)`.  The value of
`random.random()` (in `[0,1)`) is passed explicitly as `rand`. -/
def RetryConfig.get_delay (c : RetryConfig) (attempt : Nat) (rand : ℚ) : ℚ :=
  let delay := min (c.initial_delay * c.exponential_base ^ attempt) c.max_delay
  if c.jitter then delay * (1/2 + rand * (1/2)) else delay

/-! ### `agents/quality_control.py` — `QualityScorer` -/

/-- The fields of the `quality_checks` dict that
`QualityScorer.calculate_quality_score` reads:
`overall_passed` (default `True`), the `issues` and `warnings` lists,
and the truthiness of `checks["structure"]["passed"]` and
`checks["terminology"]["passed"]` (default falsy). -/
structure QualityChecks where
  overall_passed : Bool := true
  issues : List String := []
  warnings : List String := []
  structure_passed : Bool := false
  terminology_passed : Bool := false
deriving Repr, DecidableEq

/-- `QualityScorer.calculate_quality_score(content, quality_checks)`:
start from `1.0`, subtract `0.3` when `overall_passed` is falsy,
`0.1` per issue, `0.05` per warning, add `0.1` for a passed structure
check and `0.1` for a passed terminology check, then clamp with
`max(0.0, min(1.0, score))`.  The `content` argument is unused by the
source function and is omitted here. -/
def calculate_quality_score (qc : QualityChecks) : ℚ :=
  let score : ℚ := 1
  let score := if !qc.overall_passed then score - 3/10 else score
  let score := score - (qc.issues.length : ℚ) * (1/10)
  let score := score - (qc.warnings.length : ℚ) * (1/20)
  let score := if qc.structure_passed then score + 1/10 else score
  let score := if qc.terminology_passed then score + 1/10 else score
  max 0 (min 1 score)

/-! ### `tenants/context.py` and `tenants/models.py` — tenant data model -/

/-- `TenantContext` (only the fields the claims touch): `tenant_id` and
`user_id`, UUIDs modelled as opaque `Nat` identifiers. -/
structure TenantContext where
  tenant_id : Nat
  user_id : Nat
deriving Repr, DecidableEq

/-- A `WorkflowState` row (`tenants/models.py`), fields relevant to the
claims.  `state_data` and `workflow_metadata` are JSON columns, kept
abstract as strings of their serialized form is irrelevant here; times
are seconds as `Int`. -/
structure WorkflowState where
  workflow_id : Nat
  tenant_id : Nat
  user_id : Nat
  workflow_type : String
  current_step : String
  status : String
  timeout_at : Option Int
  created_at : Int
deriving Repr, DecidableEq

/-! ### `workflows/repository.py` — `WorkflowStateRepository`

The database table `workflow_states` is modelled as a `List
WorkflowState`; a SQLAlchemy `query(...).filter(cond).first()` is the
first list element satisfying `cond`. -/

/-- `WorkflowStateRepository.get_workflow(tenant_context, workflow_id)`:
`query(WorkflowState).filter(and_(WorkflowState.workflow_id ==
workflow_id, WorkflowState.tenant_id ==
tenant_context.tenant_id)).first()`. -/
def get_workflow (db : List WorkflowState) (ctx : TenantContext)
    (workflow_id : Nat) : Option WorkflowState :=
  db.find? fun w => w.workflow_id == workflow_id && w.tenant_id == ctx.tenant_id

/-- `WorkflowStateRepository.create_workflow`: builds the new row.
`timeout_at` is `now + timedelta(hours=timeout_hours)` when
`timeout_hours` is truthy (not `None` and nonzero), else `NULL`; the
status is `"running"`.  `now` stands for the single wall-clock instant
of the call (`datetime.utcnow()` / the server default for
`created_at`); `workflow_id` is the fresh `uuid4` default. -/
def create_workflow (ctx : TenantContext) (workflow_type : String)
    (initial_step : String) (timeout_hours : Option Int)
    (now : Int) (fresh_id : Nat) : WorkflowState :=
  let timeout_at : Option Int :=
    match timeout_hours with
    | Option.none => Option.none
    | Option.some h => if h ≠ 0 then Option.some (now + h * 3600) else Option.none
  { workflow_id := fresh_id
    tenant_id := ctx.tenant_id
    user_id := ctx.user_id
    workflow_type := workflow_type
    current_step := initial_step
    status := "running"
    timeout_at := timeout_at
    created_at := now }

/-! ### `memory/models.py` — `UserFeedback.is_positive` / `is_negative`
and `memory/memory_manager.py` — `MemoryManager.store_feedback` -/

/-- Python `str.lower()`, as a character-wise map (ASCII case folding
suffices for the claim's inputs). -/
def py_lower (s : String) : String := String.mk (s.data.map Char.toLower)

/-- Python `str.isdigit()`: nonempty and every character a digit
(decimal ASCII digits suffice for the claim's inputs). -/
def strIsDigit (s : String) : Bool := !s.data.isEmpty && s.data.all Char.isDigit

/-- Python `int(s)` on a digit string. -/
def strToNat (s : String) : Nat :=
  s.data.foldl (fun n c => n * 10 + (c.toNat - 48)) 0

/-- `UserFeedback.is_positive()`: `feedback_value.lower() in
{"positive","approval","accepted"} or (feedback_value.isdigit() and
int(feedback_value) >= 4)`. -/
def is_positive (feedback_value : String) : Bool :=
  (["positive", "approval", "accepted"].contains (py_lower feedback_value)) ||
  (strIsDigit feedback_value && decide (4 ≤ strToNat feedback_value))

/-- `UserFeedback.is_negative()`: `feedback_value.lower() in
{"negative","rejection","rejected"} or (feedback_value.isdigit() and
int(feedback_value) <= 2)`. -/
def is_negative (feedback_value : String) : Bool :=
  (["negative", "rejection", "rejected"].contains (py_lower feedback_value)) ||
  (strIsDigit feedback_value && decide (strToNat feedback_value ≤ 2))

/-- The confidence update performed at the end of
`MemoryManager.store_feedback` on the feedback-bucket memory:
`if feedback.is_positive(): confidence = min(1.0, confidence + 0.1)
elif feedback.is_negative(): confidence = max(0.0, confidence - 0.1)`. -/
def store_feedback_confidence (confidence_score : ℚ)
    (feedback_value : String) : ℚ :=
  if is_positive feedback_value then min 1 (confidence_score + 1/10)
  else if is_negative feedback_value then max 0 (confidence_score - 1/10)
  else confidence_score

/-! ### `agents/tender_analysis_agent.py` — `_assess_timeline_risks` -/

/-- `TenderAnalysisAgent._assess_timeline_risks(requirements)`: appends
the delivery-risk entry iff `"交付时间要求" in requirements.get("商业",
[])`.  The requirements dict is an association list in insertion
order. -/
def assess_timeline_risks (requirements : List (String × List String)) :
    List String :=
  if "交付时间要求" ∈ ((requirements.lookup "商业").getD []) then
    ["交付时间紧张，可能存在延期风险"]
  else []

/-! ### JSON values and `json.dumps`

`agents/compliance_verification_agent.py` serializes the `content`
dict with plain `json.dumps(content, ensure_ascii=False)` (default
separators `", "` and `": "`).  JSON-serializable Python data is the
inductive `JVal`; dicts keep insertion order. -/

/-- A JSON-serializable Python value.  `jint`/`jfloat` mirror the
`int`/`float` distinction `json` preserves; float values are exact
rationals (every claim-relevant float is). -/
inductive JVal where
  | str (s : String)
  | jint (n : Int)
  | jfloat (q : ℚ)
  | bool (b : Bool)
  | null
  | arr (xs : List JVal)
  | obj (kvs : List (String × JVal))
deriving Repr

/-- Lower-case hex digit, as in Python's `'\u%04x'` escapes. -/
def hexDigit (n : Nat) : Char :=
  if n < 10 then Char.ofNat (48 + n) else Char.ofNat (87 + n)

/-- Python `json.encoder` escaping of one character inside a string
(`ESCAPE_DCT`, with `ensure_ascii=False`). -/
def jsonEscapeChar (c : Char) : List Char :=
  if c = '"' then ['\\', '"']
  else if c = '\\' then ['\\', '\\']
  else if c.toNat = 8 then ['\\', 'b']
  else if c.toNat = 9 then ['\\', 't']
  else if c.toNat = 10 then ['\\', 'n']
  else if c.toNat = 12 then ['\\', 'f']
  else if c.toNat = 13 then ['\\', 'r']
  else if c.toNat < 32 then
    ['\\', 'u', '0', '0', hexDigit (c.toNat / 16), hexDigit (c.toNat % 16)]
  else [c]

/-- JSON string-body escaping. -/
def jsonEscape (s : String) : String :=
  String.mk ((s.data.map jsonEscapeChar).flatten)

/-- Python `repr` of a float whose exact value is `q`: for integral
values Python prints a trailing `.0`.  No claim inspects the rendered
digits of a non-integral float; those fall back to the rational
literal. -/
def floatRepr (q : ℚ) : String :=
  if q.den = 1 then toString q.num ++ ".0" else toString q

mutual

/-- `json.dumps(v, ensure_ascii=False)` with the default separators
`", "` and `": "`. -/
def json_dumps : JVal → String
  | JVal.str s => "\"" ++ jsonEscape s ++ "\""
  | JVal.jint n => toString n
  | JVal.jfloat q => floatRepr q
  | JVal.bool b => if b then "true" else "false"
  | JVal.null => "null"
  | JVal.arr xs => "[" ++ json_dumps_arr xs ++ "]"
  | JVal.obj kvs => "\x7b" ++ json_dumps_obj kvs ++ "\x7d"

/-- Comma-joined array elements. -/
def json_dumps_arr : List JVal → String
  | [] => ""
  | [v] => json_dumps v
  | v :: vs => json_dumps v ++ ", " ++ json_dumps_arr vs

/-- Comma-joined `"key": value` object entries. -/
def json_dumps_obj : List (String × JVal) → String
  | [] => ""
  | [(k, v)] => "\"" ++ jsonEscape k ++ "\": " ++ json_dumps v
  | (k, v) :: kvs =>
      "\"" ++ jsonEscape k ++ "\": " ++ json_dumps v ++ ", " ++
        json_dumps_obj kvs

end

/-! ### `agents/compliance_verification_agent.py` — requirement
coverage -/

/-- Contiguous-sublist test on character lists. -/
def list_infix (needle : List Char) : List Char → Bool
  | [] => needle.isEmpty
  | c :: rest => needle.isPrefixOf (c :: rest) || list_infix needle rest

/-- Python's substring test `needle in hay`. -/
def str_in (needle hay : String) : Bool := list_infix needle.data hay.data

/-- `ComplianceVerificationAgent._is_requirement_covered(requirement,
content)`: `requirement.lower() in json.dumps(content,
ensure_ascii=False).lower()`. -/
def is_requirement_covered (requirement : String) (content : JVal) : Bool :=
  str_in (py_lower requirement) (py_lower (json_dumps content))

/-- One entry of `coverage_details`: `total`, `covered`, `missing`. -/
structure CoverageDetail where
  total : Nat
  covered : Nat
  missing : List String
deriving Repr, DecidableEq

/-- The dict returned by `check_requirement_coverage`. -/
structure CoverageAnalysis where
  total_requirements : Nat
  covered_requirements : Nat
  coverage_rate : ℚ
  coverage_details : List (String × CoverageDetail)
deriving Repr, DecidableEq

/-- The per-category loop body of `check_requirement_coverage`:
count the covered requirements and collect the missing ones in
order. -/
def mkCoverageDetail (content : JVal) (req_list : List String) :
    CoverageDetail :=
  { total := req_list.length
    covered := (req_list.filter (fun r => is_requirement_covered r content)).length
    missing := req_list.filter (fun r => !is_requirement_covered r content) }

/-- `ComplianceVerificationAgent.check_requirement_coverage(requirements,
content)`: `total_requirements = len(all_requirements)` (all category
lists concatenated), per-category details, `covered_requirements` the
total covered count, `coverage_rate = float(covered) / max(1,
total_requirements)`. -/
def check_requirement_coverage
    (requirements : List (String × List String)) (content : JVal) :
    CoverageAnalysis :=
  let total := (requirements.map (fun p => p.2.length)).sum
  let details := requirements.map (fun p => (p.1, mkCoverageDetail content p.2))
  let covered := (details.map (fun p => p.2.covered)).sum
  { total_requirements := total
    covered_requirements := covered
    coverage_rate := (covered : ℚ) / ((Nat.max 1 total : Nat) : ℚ)
    coverage_details := details }

/-! ### `agents/agent_manager.py` — `AgentWorkflowManager._execute_workflow`

The in-memory `self.workflows` dict is an association list from
workflow id to the record fields `_update_workflow_status` writes
(`status`, `current_step`, `progress`, `result`, `error`); the
untouched bookkeeping fields (`start_time`, `agents`, `group_chat`,
`execution_id`, `chat_history`) are not modelled.  A Python exception
is `PyExc`; each awaited pipeline stage (`_run_tender_analysis`,
`_run_knowledge_retrieval`, `_run_content_generation`,
`_run_compliance_verification`) either returns a parsed agent result
or raises, so each is an explicit `Except PyExc AgentResult`
parameter; `has_group_chat` models `workflow_id in self.group_chats`. -/

/-- A raised Python exception: either a `ValueError` or an exception of
any other type (carrying its type name). -/
inductive PyExc where
  | valueError (msg : String)
  | otherExc (name msg : String)
deriving Repr, DecidableEq

/-- The dict `_parse_agent_response` returns:
`{"content": ..., "status": "success"}`. -/
structure AgentResult where
  content : String
  status : String
deriving Repr, DecidableEq

/-- The workflow-record fields written by `_update_workflow_status`. -/
structure WorkflowRecord where
  status : String
  current_step : String
  progress : ℚ
  result : Option (List (String × AgentResult))
  error : Option String
deriving Repr, DecidableEq

/-- `AgentWorkflowManager._update_workflow_status`: if `workflow_id in
self.workflows`, overwrite the record's `status`, `current_step`,
`progress`, `result` and `error`; otherwise do nothing. -/
def update_workflow_status (st : List (String × WorkflowRecord))
    (workflow_id status current_step : String) (progress : ℚ)
    (result : Option (List (String × AgentResult)))
    (error : Option String) : List (String × WorkflowRecord) :=
  st.map fun p =>
    if p.1 == workflow_id then
      (p.1, { status := status, current_step := current_step,
              progress := progress, result := result, error := error })
    else p

/-- `AgentWorkflowManager._execute_workflow(workflow_id, ...)`: the
`try` body raises `ValueError` when the group chat is missing, runs the
four stages with progress updates `0.25/0.5/0.75/0.9` and finishes with
the `completed` update; the sole `except ValueError as e` clause turns
a `ValueError` into the `failed`/`error`/`0.0` update with `str(e)`,
while every other exception leaves the coroutine as a raise
(`Except.error`). Returns the final `self.workflows` together with the
coroutine's outcome. -/
def execute_workflow (st : List (String × WorkflowRecord))
    (workflow_id : String) (has_group_chat : Bool)
    (analysis knowledge content compliance : Except PyExc AgentResult) :
    List (String × WorkflowRecord) × Except PyExc Unit :=
  let body : List (String × WorkflowRecord) × Except PyExc Unit :=
    if !has_group_chat then
      (st, Except.error (PyExc.valueError
        ("Group chat for workflow " ++ workflow_id ++ " not found")))
    else
      let st1 := update_workflow_status st workflow_id "running"
        "tender_analysis" (1/4) Option.none Option.none
      match analysis with
      | Except.error e => (st1, Except.error e)
      | Except.ok a =>
        let st2 := update_workflow_status st1 workflow_id "running"
          "knowledge_retrieval" (1/2) Option.none Option.none
        match knowledge with
        | Except.error e => (st2, Except.error e)
        | Except.ok k =>
          let st3 := update_workflow_status st2 workflow_id "running"
            "content_generation" (3/4) Option.none Option.none
          match content with
          | Except.error e => (st3, Except.error e)
          | Except.ok c =>
            let st4 := update_workflow_status st3 workflow_id "running"
              "compliance_verification" (9/10) Option.none Option.none
            match compliance with
            | Except.error e => (st4, Except.error e)
            | Except.ok cv =>
              (update_workflow_status st4 workflow_id "completed" "finished" 1
                (Option.some [("analysis", a), ("knowledge", k),
                  ("content", c), ("compliance", cv)]) Option.none,
               Except.ok ())
  match body with
  | (st', Except.error (PyExc.valueError m)) =>
      (update_workflow_status st' workflow_id "failed" "error" 0
        Option.none (Option.some m), Except.ok ())
  | other => other

/-- The first exception the `try` body of `_execute_workflow` raises,
if any (in evaluation order). -/
def first_failure (workflow_id : String) (has_group_chat : Bool)
    (analysis knowledge content compliance : Except PyExc AgentResult) :
    Option PyExc :=
  if !has_group_chat then
    Option.some (PyExc.valueError
      ("Group chat for workflow " ++ workflow_id ++ " not found"))
  else
    match analysis with
    | Except.error e => Option.some e
    | Except.ok _ =>
      match knowledge with
      | Except.error e => Option.some e
      | Except.ok _ =>
        match content with
        | Except.error e => Option.some e
        | Except.ok _ =>
          match compliance with
          | Except.error e => Option.some e
          | Except.ok _ => Option.none

/-! ### `workflows/serialization.py` — the workflow-state JSON codec

`serialize_workflow_data(data)` is `json.dumps(data,
cls=WorkflowStateEncoder, ensure_ascii=False, separators=(',', ':'))`
and `deserialize_workflow_data` is `json.loads(json_str,
object_hook=workflow_state_decoder)`.  The codec is modelled at the
JSON-tree level: `json.loads(json.dumps(j))` reproduces the JSON tree
`j` exactly, so the composition `deserialize ∘ serialize` is the
composition of the encoder's tree transformation with the
`object_hook` pass.  `PyVal` is the universe of serializable Python
values; `uuid`/`datetime`/`date`/`decimal` leaves carry their
`str(...)`/`isoformat()` form, under which `UUID(str(u)) == u`,
`fromisoformat(d.isoformat()) == d` and `Decimal(str(x)) == x` hold
exactly. -/

/-- A Python value handled by the workflow-state codec. -/
inductive PyVal where
  | str (s : String)
  | int (n : Int)
  | float (q : ℚ)
  | bool (b : Bool)
  | pynone
  | uuid (s : String)
  | datetime (s : String)
  | date (s : String)
  | decimal (s : String)
  | list (xs : List PyVal)
  | dict (kvs : List (String × PyVal))
deriving Repr

mutual

/-- `WorkflowStateEncoder.default` combined with `json.dumps`
recursion: leaves pass through, `UUID`/`datetime`/`date`/`Decimal`
values become `{"__type__": tag, "value": str-form}` envelopes,
containers recurse.  (The encoder's `__dict__` fallback for custom
objects is outside `PyVal`.) -/
def encodeVal : PyVal → JVal
  | PyVal.str s => JVal.str s
  | PyVal.int n => JVal.jint n
  | PyVal.float q => JVal.jfloat q
  | PyVal.bool b => JVal.bool b
  | PyVal.pynone => JVal.null
  | PyVal.uuid s =>
      JVal.obj [("__type__", JVal.str "uuid"), ("value", JVal.str s)]
  | PyVal.datetime s =>
      JVal.obj [("__type__", JVal.str "datetime"), ("value", JVal.str s)]
  | PyVal.date s =>
      JVal.obj [("__type__", JVal.str "date"), ("value", JVal.str s)]
  | PyVal.decimal s =>
      JVal.obj [("__type__", JVal.str "decimal"), ("value", JVal.str s)]
  | PyVal.list xs => JVal.arr (encodeList xs)
  | PyVal.dict kvs => JVal.obj (encodeEntries kvs)

/-- Encode the elements of a list. -/
def encodeList : List PyVal → List JVal
  | [] => []
  | x :: xs => encodeVal x :: encodeList xs

/-- Encode the entries of a dict. -/
def encodeEntries : List (String × PyVal) → List (String × JVal)
  | [] => []
  | (k, v) :: kvs => (k, encodeVal v) :: encodeEntries kvs

end

/-- Python dict assignment `d[k] = v`: update in place if the key
exists, else append. -/
def dictAssign (d : List (String × PyVal)) (k : String) (v : PyVal) :
    List (String × PyVal) :=
  if d.any (fun p => p.1 == k) then
    d.map (fun p => if p.1 == k then (k, v) else p)
  else d ++ [(k, v)]

/-- `workflow_state_decoder(dct)`, applied by `json.loads` to every
completed object: a dict with a `"__type__"` key and a `"value"` key is
rebuilt into the tagged value (`uuid.UUID(value)`,
`datetime.fromisoformat(value)`, `date.fromisoformat(value)`,
`Decimal(value)`, or the `{"__class__": dct["class"], **value}` merge
for `"object"`); a dict with `"__type__"` but no `"value"` raises
`KeyError` (`Option.none`); any other dict is returned unchanged.
Payloads of types the constructors reject (e.g. `uuid.UUID` of a
non-string) raise and are mapped to `Option.none`; `Decimal` also
accepts an `int` payload. -/
def workflow_state_decoder (kvs : List (String × PyVal)) : Option PyVal :=
  match kvs.lookup "__type__" with
  | Option.none => Option.some (PyVal.dict kvs)
  | Option.some t =>
    match kvs.lookup "value" with
    | Option.none => Option.none
    | Option.some v =>
      match t, v with
      | PyVal.str "uuid", PyVal.str s => Option.some (PyVal.uuid s)
      | PyVal.str "uuid", _ => Option.none
      | PyVal.str "datetime", PyVal.str s => Option.some (PyVal.datetime s)
      | PyVal.str "datetime", _ => Option.none
      | PyVal.str "date", PyVal.str s => Option.some (PyVal.date s)
      | PyVal.str "date", _ => Option.none
      | PyVal.str "decimal", PyVal.str s => Option.some (PyVal.decimal s)
      | PyVal.str "decimal", PyVal.int n =>
          Option.some (PyVal.decimal (toString n))
      | PyVal.str "decimal", _ => Option.none
      | PyVal.str "object", PyVal.dict vkvs =>
          match kvs.lookup "class" with
          | Option.some c =>
              Option.some (PyVal.dict
                (vkvs.foldl (fun d p => dictAssign d p.1 p.2)
                  [("__class__", c)]))
          | Option.none => Option.none
      | PyVal.str "object", _ => Option.none
      | _, _ => Option.some (PyVal.dict kvs)

mutual

/-- `json.loads` with `object_hook=workflow_state_decoder`: rebuild the
Python value bottom-up, applying the hook to every completed dict. -/
def decodeVal : JVal → Option PyVal
  | JVal.str s => Option.some (PyVal.str s)
  | JVal.jint n => Option.some (PyVal.int n)
  | JVal.jfloat q => Option.some (PyVal.float q)
  | JVal.bool b => Option.some (PyVal.bool b)
  | JVal.null => Option.some PyVal.pynone
  | JVal.arr xs =>
      match decodeList xs with
      | Option.some ys => Option.some (PyVal.list ys)
      | Option.none => Option.none
  | JVal.obj kvs =>
      match decodeEntries kvs with
      | Option.some ys => workflow_state_decoder ys
      | Option.none => Option.none

/-- Decode the elements of an array. -/
def decodeList : List JVal → Option (List PyVal)
  | [] => Option.some []
  | x :: xs =>
      match decodeVal x, decodeList xs with
      | Option.some y, Option.some ys => Option.some (y :: ys)
      | _, _ => Option.none

/-- Decode the entries of an object. -/
def decodeEntries : List (String × JVal) → Option (List (String × PyVal))
  | [] => Option.some []
  | (k, v) :: kvs =>
      match decodeVal v, decodeEntries kvs with
      | Option.some y, Option.some ys => Option.some ((k, y) :: ys)
      | _, _ => Option.none

end

/-- `serialize_workflow_data`, at the JSON-tree level. -/
def serialize_workflow_data : PyVal → JVal := encodeVal

/-- `deserialize_workflow_data`, at the JSON-tree level
(`Option.none` = a raised exception). -/
def deserialize_workflow_data : JVal → Option PyVal := decodeVal

mutual

/-- No dict anywhere inside the value uses the reserved key
`"__type__"`. -/
def noTypeTag : PyVal → Bool
  | PyVal.list xs => noTypeTagList xs
  | PyVal.dict kvs =>
      !((kvs.map Prod.fst).contains "__type__") && noTypeTagEntries kvs
  | _ => true

/-- `noTypeTag` on the elements of a list. -/
def noTypeTagList : List PyVal → Bool
  | [] => true
  | x :: xs => noTypeTag x && noTypeTagList xs

/-- `noTypeTag` on the values of a dict. -/
def noTypeTagEntries : List (String × PyVal) → Bool
  | [] => true
  | (_, v) :: kvs => noTypeTag v && noTypeTagEntries kvs

end

end BidAssistant

namespace BidAssistant

/-! ## Helper lemmas -/

/-- `dict.get(k, default)` misses every key not present. -/
theorem lookup_eq_none_of_not_mem_keys {β : Type} (k : String)
    (l : List (String × β)) (hk : k ∉ l.map Prod.fst) :
    l.lookup k = Option.none := by
  induction l with
  | nil => rfl
  | cons p l ih =>
    simp only [List.map_cons, List.mem_cons, not_or] at hk
    rw [List.lookup_cons]
    have : (k == p.1) = false := by
      simp only [beq_eq_false_iff_ne, ne_eq]
      exact hk.1
    rw [this]
    exact ih hk.2

/-- After `_update_workflow_status` on a present workflow id, the
record holds exactly the written fields. -/
theorem lookup_update_self (st : List (String × WorkflowRecord))
    (wid status step : String) (progress : ℚ)
    (result : Option (List (String × AgentResult)))
    (error : Option String) (rec : WorkflowRecord)
    (h : st.lookup wid = Option.some rec) :
    (update_workflow_status st wid status step progress result error).lookup wid
      = Option.some { status := status, current_step := step,
                      progress := progress, result := result,
                      error := error } := by
  induction st with
  | nil => simp [List.lookup] at h
  | cons p st ih =>
    obtain ⟨k, v⟩ := p
    by_cases hp : wid = k
    · subst hp
      simp [update_workflow_status, List.lookup_cons]
    · have hbf : (wid == k) = false := beq_eq_false_iff_ne.mpr hp
      have hbf2 : (k == wid) = false := beq_eq_false_iff_ne.mpr (Ne.symm hp)
      simp only [List.lookup_cons, hbf] at h
      simp only [update_workflow_status] at ih ⊢
      simp only [List.map_cons, hbf2, Bool.false_eq_true, if_false,
        List.lookup_cons, hbf]
      exact ih h

mutual

/-- Round-trip on values that use no `"__type__"` dict key. -/
theorem decode_encode_val : ∀ (x : PyVal), noTypeTag x = true →
    decodeVal (encodeVal x) = Option.some x
  | PyVal.str _, _ => rfl
  | PyVal.int _, _ => rfl
  | PyVal.float _, _ => rfl
  | PyVal.bool _, _ => rfl
  | PyVal.pynone, _ => rfl
  | PyVal.uuid _, _ => rfl
  | PyVal.datetime _, _ => rfl
  | PyVal.date _, _ => rfl
  | PyVal.decimal _, _ => rfl
  | PyVal.list xs, h => by
      have hxs : noTypeTagList xs = true := h
      simp only [encodeVal, decodeVal, decode_encode_list xs hxs]
  | PyVal.dict kvs, h => by
      have h' : (!((kvs.map Prod.fst).contains "__type__")
          && noTypeTagEntries kvs) = true := h
      have h1 : ((kvs.map Prod.fst).contains "__type__") = false := by
        simpa using ((Bool.and_eq_true _ _).mp h').1
      have h2 : noTypeTagEntries kvs = true := ((Bool.and_eq_true _ _).mp h').2
      have hmem : "__type__" ∉ kvs.map Prod.fst := by simpa using h1
      have hl : kvs.lookup "__type__" = Option.none :=
        lookup_eq_none_of_not_mem_keys _ _ hmem
      simp only [encodeVal, decodeVal, decode_encode_entries kvs h2,
        workflow_state_decoder, hl]

/-- Round-trip on the elements of a list. -/
theorem decode_encode_list : ∀ (xs : List PyVal), noTypeTagList xs = true →
    decodeList (encodeList xs) = Option.some xs
  | [], _ => rfl
  | x :: xs, h => by
      have hx : noTypeTag x = true := ((Bool.and_eq_true _ _).mp h).1
      have hxs : noTypeTagList xs = true := ((Bool.and_eq_true _ _).mp h).2
      simp only [encodeList, decodeList, decode_encode_val x hx,
        decode_encode_list xs hxs]

/-- Round-trip on the entries of a dict. -/
theorem decode_encode_entries : ∀ (kvs : List (String × PyVal)),
    noTypeTagEntries kvs = true →
    decodeEntries (encodeEntries kvs) = Option.some kvs
  | [], _ => rfl
  | (k, v) :: kvs, h => by
      have hv : noTypeTag v = true := ((Bool.and_eq_true _ _).mp h).1
      have hkvs : noTypeTagEntries kvs = true := ((Bool.and_eq_true _ _).mp h).2
      simp only [encodeEntries, decodeEntries, decode_encode_val v hv,
        decode_encode_entries kvs hkvs]

end

end BidAssistant

namespace BidAssistant

/-! ## Theorems -/

/-- C3 counterexample: the plain nested dict
`{"__type__": "decimal", "value": "1"}` — built only from dicts with
string keys and string leaves — does not survive the round trip: the
decoder's envelope detection rebuilds it as `Decimal("1")`, so
`deserialize_workflow_data(serialize_workflow_data(x)) ≠ x`. -/
theorem serialization_roundtrip_counterexample :
    deserialize_workflow_data (serialize_workflow_data
        (PyVal.dict [("__type__", PyVal.str "decimal"),
                     ("value", PyVal.str "1")]))
      = Option.some (PyVal.decimal "1") ∧
    Option.some (PyVal.decimal "1")
      ≠ Option.some (PyVal.dict [("__type__", PyVal.str "decimal"),
                                 ("value", PyVal.str "1")]) :=
  ⟨rfl, fun hc => PyVal.noConfusion (Option.some.inj hc)⟩

/-- C3 (amended): for every value built from nested dicts (string
keys) and lists over string/int/float/bool/None/UUID/datetime/date/
Decimal leaves in which no dict uses the reserved key `"__type__"`,
`deserialize_workflow_data(serialize_workflow_data(x))` returns exactly
`x`. -/
theorem serialization_roundtrip (x : PyVal) (h : noTypeTag x = true) :
    deserialize_workflow_data (serialize_workflow_data x)
      = Option.some x :=
  decode_encode_val x h

/-- Witness for C3 (amended): a nested dict/list value holding a UUID,
a datetime, a date, a Decimal, and scalar leaves. -/
theorem serialization_roundtrip_witness :
    deserialize_workflow_data (serialize_workflow_data
        (PyVal.dict
          [("items", PyVal.list [PyVal.int 1, PyVal.float (1/2),
              PyVal.bool true, PyVal.pynone, PyVal.str "x"]),
           ("id", PyVal.uuid "00000000-0000-0000-0000-000000000001"),
           ("at", PyVal.datetime "2024-01-02T03:04:05.000006"),
           ("day", PyVal.date "2024-01-02"),
           ("amount", PyVal.decimal "1.25")]))
      = Option.some (PyVal.dict
          [("items", PyVal.list [PyVal.int 1, PyVal.float (1/2),
              PyVal.bool true, PyVal.pynone, PyVal.str "x"]),
           ("id", PyVal.uuid "00000000-0000-0000-0000-000000000001"),
           ("at", PyVal.datetime "2024-01-02T03:04:05.000006"),
           ("day", PyVal.date "2024-01-02"),
           ("amount", PyVal.decimal "1.25")]) :=
  serialization_roundtrip
    (PyVal.dict
      [("items", PyVal.list [PyVal.int 1, PyVal.float (1/2),
          PyVal.bool true, PyVal.pynone, PyVal.str "x"]),
       ("id", PyVal.uuid "00000000-0000-0000-0000-000000000001"),
       ("at", PyVal.datetime "2024-01-02T03:04:05.000006"),
       ("day", PyVal.date "2024-01-02"),
       ("amount", PyVal.decimal "1.25")]) (by decide)

/-- The configuration `RetryConfig(initial_delay=1.0, max_delay=60.0,
exponential_base=2.0, jitter=False)` named in the spec's example. -/
def specRetryConfig : RetryConfig :=
  { initial_delay := 1, max_delay := 60, exponential_base := 2, jitter := false }

/-- C2 counterexample: a `TypeError` raised by the tender-analysis
stage is NOT caught by `_execute_workflow` — the coroutine re-raises it
and the workflow record stays `running`/`tender_analysis`, never
becoming `failed`; the claim that any exception of any type is turned
into a `failed` update and never propagated is false on this input. -/
theorem pipeline_exception_counterexample :
    (execute_workflow
        [("w", { status := "running", current_step := "initializing",
                 progress := 0, result := Option.none, error := Option.none })]
        "w" true
        (Except.error (PyExc.otherExc "TypeError" "boom"))
        (Except.ok { content := "", status := "success" })
        (Except.ok { content := "", status := "success" })
        (Except.ok { content := "", status := "success" })).2
      = Except.error (PyExc.otherExc "TypeError" "boom") ∧
    (execute_workflow
        [("w", { status := "running", current_step := "initializing",
                 progress := 0, result := Option.none, error := Option.none })]
        "w" true
        (Except.error (PyExc.otherExc "TypeError" "boom"))
        (Except.ok { content := "", status := "success" })
        (Except.ok { content := "", status := "success" })
        (Except.ok { content := "", status := "success" })).1.lookup "w"
      = Option.some { status := "running", current_step := "tender_analysis",
                      progress := 1/4, result := Option.none,
                      error := Option.none } ∧
    ("running" : String) ≠ "failed" :=
  ⟨rfl, rfl, by decide⟩

/-- C2 (amended): an exception in the pipeline is caught and turned
into the `failed`/`error`/`progress 0.0` update carrying its message
only when it is a `ValueError`; an exception of any other type is
re-raised out of `_execute_workflow` and the workflow record is left
with a non-`failed` status; with no exception the workflow completes. -/
theorem pipeline_valueerror_handling
    (st : List (String × WorkflowRecord)) (wid : String)
    (rec : WorkflowRecord) (hgc : Bool)
    (s1 s2 s3 s4 : Except PyExc AgentResult)
    (hrec : st.lookup wid = Option.some rec) :
    (∀ m, first_failure wid hgc s1 s2 s3 s4
        = Option.some (PyExc.valueError m) →
      (execute_workflow st wid hgc s1 s2 s3 s4).2 = Except.ok () ∧
      ∃ r, (execute_workflow st wid hgc s1 s2 s3 s4).1.lookup wid
          = Option.some r ∧
        r.status = "failed" ∧ r.current_step = "error" ∧ r.progress = 0 ∧
        r.error = Option.some m) ∧
    (∀ nm m, first_failure wid hgc s1 s2 s3 s4
        = Option.some (PyExc.otherExc nm m) →
      (execute_workflow st wid hgc s1 s2 s3 s4).2
          = Except.error (PyExc.otherExc nm m) ∧
      ∃ r, (execute_workflow st wid hgc s1 s2 s3 s4).1.lookup wid
          = Option.some r ∧ r.status ≠ "failed") ∧
    (first_failure wid hgc s1 s2 s3 s4 = Option.none →
      (execute_workflow st wid hgc s1 s2 s3 s4).2 = Except.ok () ∧
      ∃ r, (execute_workflow st wid hgc s1 s2 s3 s4).1.lookup wid
          = Option.some r ∧ r.status = "completed") := by
  have u1 := lookup_update_self st wid "running" "tender_analysis" (1/4)
    Option.none Option.none rec hrec
  have u2 := lookup_update_self _ wid "running" "knowledge_retrieval" (1/2)
    Option.none Option.none _ u1
  have u3 := lookup_update_self _ wid "running" "content_generation" (3/4)
    Option.none Option.none _ u2
  have u4 := lookup_update_self _ wid "running" "compliance_verification" (9/10)
    Option.none Option.none _ u3
  cases hgc
  case false =>
    refine ⟨?_, ?_, ?_⟩
    · intro m hm
      have hm' : Option.some (PyExc.valueError
            ("Group chat for workflow " ++ wid ++ " not found"))
          = Option.some (PyExc.valueError m) := hm
      obtain rfl := PyExc.valueError.inj (Option.some.inj hm')
      exact ⟨rfl, _, lookup_update_self st wid "failed" "error" 0
        Option.none (Option.some _) rec hrec, rfl, rfl, rfl, rfl⟩
    · intro nm m hm
      have hm' : Option.some (PyExc.valueError
            ("Group chat for workflow " ++ wid ++ " not found"))
          = Option.some (PyExc.otherExc nm m) := hm
      exact PyExc.noConfusion (Option.some.inj hm')
    · intro hm
      exact Option.noConfusion (show Option.some (PyExc.valueError
        ("Group chat for workflow " ++ wid ++ " not found"))
          = Option.none from hm)
  case true =>
    rcases s1 with (m1 | ⟨n1, m1⟩) | a1
    · refine ⟨?_, ?_, ?_⟩
      · intro m hm
        have hm' : Option.some (PyExc.valueError m1)
            = Option.some (PyExc.valueError m) := hm
        obtain rfl := PyExc.valueError.inj (Option.some.inj hm')
        exact ⟨rfl, _, lookup_update_self _ wid "failed" "error" 0
          Option.none (Option.some _) _ u1, rfl, rfl, rfl, rfl⟩
      · intro nm m hm
        have hm' : Option.some (PyExc.valueError m1)
            = Option.some (PyExc.otherExc nm m) := hm
        exact PyExc.noConfusion (Option.some.inj hm')
      · intro hm
        exact Option.noConfusion (show Option.some (PyExc.valueError m1)
          = Option.none from hm)
    · refine ⟨?_, ?_, ?_⟩
      · intro m hm
        have hm' : Option.some (PyExc.otherExc n1 m1)
            = Option.some (PyExc.valueError m) := hm
        exact PyExc.noConfusion (Option.some.inj hm')
      · intro nm m hm
        have hm' : Option.some (PyExc.otherExc n1 m1)
            = Option.some (PyExc.otherExc nm m) := hm
        obtain ⟨rfl, rfl⟩ := PyExc.otherExc.inj (Option.some.inj hm')
        exact ⟨rfl, _, u1, by decide⟩
      · intro hm
        exact Option.noConfusion (show Option.some (PyExc.otherExc n1 m1)
          = Option.none from hm)
    · rcases s2 with (m2 | ⟨n2, m2⟩) | a2
      · refine ⟨?_, ?_, ?_⟩
        · intro m hm
          have hm' : Option.some (PyExc.valueError m2)
              = Option.some (PyExc.valueError m) := hm
          obtain rfl := PyExc.valueError.inj (Option.some.inj hm')
          exact ⟨rfl, _, lookup_update_self _ wid "failed" "error" 0
            Option.none (Option.some _) _ u2, rfl, rfl, rfl, rfl⟩
        · intro nm m hm
          have hm' : Option.some (PyExc.valueError m2)
              = Option.some (PyExc.otherExc nm m) := hm
          exact PyExc.noConfusion (Option.some.inj hm')
        · intro hm
          exact Option.noConfusion (show Option.some (PyExc.valueError m2)
            = Option.none from hm)
      · refine ⟨?_, ?_, ?_⟩
        · intro m hm
          have hm' : Option.some (PyExc.otherExc n2 m2)
              = Option.some (PyExc.valueError m) := hm
          exact PyExc.noConfusion (Option.some.inj hm')
        · intro nm m hm
          have hm' : Option.some (PyExc.otherExc n2 m2)
              = Option.some (PyExc.otherExc nm m) := hm
          obtain ⟨rfl, rfl⟩ := PyExc.otherExc.inj (Option.some.inj hm')
          exact ⟨rfl, _, u2, by decide⟩
        · intro hm
          exact Option.noConfusion (show Option.some (PyExc.otherExc n2 m2)
            = Option.none from hm)
      · rcases s3 with (m3 | ⟨n3, m3⟩) | a3
        · refine ⟨?_, ?_, ?_⟩
          · intro m hm
            have hm' : Option.some (PyExc.valueError m3)
                = Option.some (PyExc.valueError m) := hm
            obtain rfl := PyExc.valueError.inj (Option.some.inj hm')
            exact ⟨rfl, _, lookup_update_self _ wid "failed" "error" 0
              Option.none (Option.some _) _ u3, rfl, rfl, rfl, rfl⟩
          · intro nm m hm
            have hm' : Option.some (PyExc.valueError m3)
                = Option.some (PyExc.otherExc nm m) := hm
            exact PyExc.noConfusion (Option.some.inj hm')
          · intro hm
            exact Option.noConfusion (show Option.some (PyExc.valueError m3)
              = Option.none from hm)
        · refine ⟨?_, ?_, ?_⟩
          · intro m hm
            have hm' : Option.some (PyExc.otherExc n3 m3)
                = Option.some (PyExc.valueError m) := hm
            exact PyExc.noConfusion (Option.some.inj hm')
          · intro nm m hm
            have hm' : Option.some (PyExc.otherExc n3 m3)
                = Option.some (PyExc.otherExc nm m) := hm
            obtain ⟨rfl, rfl⟩ := PyExc.otherExc.inj (Option.some.inj hm')
            exact ⟨rfl, _, u3, by decide⟩
          · intro hm
            exact Option.noConfusion (show Option.some (PyExc.otherExc n3 m3)
              = Option.none from hm)
        · rcases s4 with (m4 | ⟨n4, m4⟩) | a4
          · refine ⟨?_, ?_, ?_⟩
            · intro m hm
              have hm' : Option.some (PyExc.valueError m4)
                  = Option.some (PyExc.valueError m) := hm
              obtain rfl := PyExc.valueError.inj (Option.some.inj hm')
              exact ⟨rfl, _, lookup_update_self _ wid "failed" "error" 0
                Option.none (Option.some _) _ u4, rfl, rfl, rfl, rfl⟩
            · intro nm m hm
              have hm' : Option.some (PyExc.valueError m4)
                  = Option.some (PyExc.otherExc nm m) := hm
              exact PyExc.noConfusion (Option.some.inj hm')
            · intro hm
              exact Option.noConfusion (show Option.some (PyExc.valueError m4)
                = Option.none from hm)
          · refine ⟨?_, ?_, ?_⟩
            · intro m hm
              have hm' : Option.some (PyExc.otherExc n4 m4)
                  = Option.some (PyExc.valueError m) := hm
              exact PyExc.noConfusion (Option.some.inj hm')
            · intro nm m hm
              have hm' : Option.some (PyExc.otherExc n4 m4)
                  = Option.some (PyExc.otherExc nm m) := hm
              obtain ⟨rfl, rfl⟩ := PyExc.otherExc.inj (Option.some.inj hm')
              exact ⟨rfl, _, u4, by decide⟩
            · intro hm
              exact Option.noConfusion (show Option.some (PyExc.otherExc n4 m4)
                = Option.none from hm)
          · refine ⟨?_, ?_, ?_⟩
            · intro m hm
              exact Option.noConfusion (show (Option.none : Option PyExc)
                = Option.some (PyExc.valueError m) from hm)
            · intro nm m hm
              exact Option.noConfusion (show (Option.none : Option PyExc)
                = Option.some (PyExc.otherExc nm m) from hm)
            · intro hm
              exact ⟨rfl, _, lookup_update_self _ wid "completed" "finished" 1
                (Option.some [("analysis", a1), ("knowledge", a2),
                  ("content", a3), ("compliance", a4)]) Option.none _ u4, rfl⟩

/-- Witness for C2 (amended) on a one-workflow manager with a
`ValueError` raised by the tender-analysis stage. -/
theorem pipeline_valueerror_handling_witness :
    (∀ m, first_failure "w" true (Except.error (PyExc.valueError "boom"))
        (Except.ok { content := "", status := "success" })
        (Except.ok { content := "", status := "success" })
        (Except.ok { content := "", status := "success" })
        = Option.some (PyExc.valueError m) →
      (execute_workflow
          [("w", { status := "running", current_step := "initializing",
                   progress := 0, result := Option.none,
                   error := Option.none })]
          "w" true (Except.error (PyExc.valueError "boom"))
          (Except.ok { content := "", status := "success" })
          (Except.ok { content := "", status := "success" })
          (Except.ok { content := "", status := "success" })).2
        = Except.ok () ∧
      ∃ r, (execute_workflow
          [("w", { status := "running", current_step := "initializing",
                   progress := 0, result := Option.none,
                   error := Option.none })]
          "w" true (Except.error (PyExc.valueError "boom"))
          (Except.ok { content := "", status := "success" })
          (Except.ok { content := "", status := "success" })
          (Except.ok { content := "", status := "success" })).1.lookup "w"
          = Option.some r ∧
        r.status = "failed" ∧ r.current_step = "error" ∧ r.progress = 0 ∧
        r.error = Option.some m) ∧
    (∀ nm m, first_failure "w" true (Except.error (PyExc.valueError "boom"))
        (Except.ok { content := "", status := "success" })
        (Except.ok { content := "", status := "success" })
        (Except.ok { content := "", status := "success" })
        = Option.some (PyExc.otherExc nm m) →
      (execute_workflow
          [("w", { status := "running", current_step := "initializing",
                   progress := 0, result := Option.none,
                   error := Option.none })]
          "w" true (Except.error (PyExc.valueError "boom"))
          (Except.ok { content := "", status := "success" })
          (Except.ok { content := "", status := "success" })
          (Except.ok { content := "", status := "success" })).2
          = Except.error (PyExc.otherExc nm m) ∧
      ∃ r, (execute_workflow
          [("w", { status := "running", current_step := "initializing",
                   progress := 0, result := Option.none,
                   error := Option.none })]
          "w" true (Except.error (PyExc.valueError "boom"))
          (Except.ok { content := "", status := "success" })
          (Except.ok { content := "", status := "success" })
          (Except.ok { content := "", status := "success" })).1.lookup "w"
          = Option.some r ∧ r.status ≠ "failed") ∧
    (first_failure "w" true (Except.error (PyExc.valueError "boom"))
        (Except.ok { content := "", status := "success" })
        (Except.ok { content := "", status := "success" })
        (Except.ok { content := "", status := "success" }) = Option.none →
      (execute_workflow
          [("w", { status := "running", current_step := "initializing",
                   progress := 0, result := Option.none,
                   error := Option.none })]
          "w" true (Except.error (PyExc.valueError "boom"))
          (Except.ok { content := "", status := "success" })
          (Except.ok { content := "", status := "success" })
          (Except.ok { content := "", status := "success" })).2
        = Except.ok () ∧
      ∃ r, (execute_workflow
          [("w", { status := "running", current_step := "initializing",
                   progress := 0, result := Option.none,
                   error := Option.none })]
          "w" true (Except.error (PyExc.valueError "boom"))
          (Except.ok { content := "", status := "success" })
          (Except.ok { content := "", status := "success" })
          (Except.ok { content := "", status := "success" })).1.lookup "w"
          = Option.some r ∧ r.status = "completed") :=
  pipeline_valueerror_handling
    [("w", { status := "running", current_step := "initializing",
             progress := 0, result := Option.none, error := Option.none })]
    "w"
    { status := "running", current_step := "initializing", progress := 0,
      result := Option.none, error := Option.none }
    true (Except.error (PyExc.valueError "boom"))
    (Except.ok { content := "", status := "success" })
    (Except.ok { content := "", status := "success" })
    (Except.ok { content := "", status := "success" }) rfl

/-- C4: for every `RetryConfig` with `jitter=False` and every attempt,
`get_delay(attempt) = min(initial_delay * exponential_base ** attempt,
max_delay)`; for `RetryConfig(initial_delay=1.0, max_delay=60.0,
exponential_base=2.0, jitter=False)` in particular `get_delay(0)=1.0`,
`get_delay(1)=2.0`, `get_delay(2)=4.0`, `get_delay(10)=60.0`. -/
theorem retry_backoff_formula (c : RetryConfig) (attempt : Nat) (rand : ℚ)
    (hj : c.jitter = false) :
    c.get_delay attempt rand
      = min (c.initial_delay * c.exponential_base ^ attempt) c.max_delay ∧
    (specRetryConfig.get_delay 0 rand = 1 ∧
     specRetryConfig.get_delay 1 rand = 2 ∧
     specRetryConfig.get_delay 2 rand = 4 ∧
     specRetryConfig.get_delay 10 rand = 60) := by
  constructor
  · simp [RetryConfig.get_delay, hj]
  · refine ⟨?_, ?_, ?_, ?_⟩ <;>
      norm_num [RetryConfig.get_delay, specRetryConfig, min_def]

/-- Witness for C4 at `attempt = 3`, `rand = 1/3`. -/
theorem retry_backoff_formula_witness :
    specRetryConfig.get_delay 3 (1/3)
      = min (specRetryConfig.initial_delay * specRetryConfig.exponential_base ^ 3)
          specRetryConfig.max_delay ∧
    (specRetryConfig.get_delay 0 (1/3) = 1 ∧
     specRetryConfig.get_delay 1 (1/3) = 2 ∧
     specRetryConfig.get_delay 2 (1/3) = 4 ∧
     specRetryConfig.get_delay 10 (1/3) = 60) :=
  retry_backoff_formula specRetryConfig 3 (1/3) rfl

/-- C1: tenant isolation of workflow reads.  If the (unique) rows
carrying `w.workflow_id` all belong to `w`'s tenant, then
`get_workflow` under any context of a different tenant returns `None`,
even though the row is in the table (a read under the owning tenant
succeeds); moreover every row `get_workflow` ever returns matches both
the requested `workflow_id` and the caller's `tenant_id`. -/
theorem tenant_isolation_get_workflow (db : List WorkflowState)
    (ctx : TenantContext) (w : WorkflowState) (hmem : w ∈ db)
    (hunique : ∀ v ∈ db, v.workflow_id = w.workflow_id → v.tenant_id = w.tenant_id)
    (hne : ctx.tenant_id ≠ w.tenant_id) :
    get_workflow db ctx w.workflow_id = Option.none ∧
    (get_workflow db ⟨w.tenant_id, ctx.user_id⟩ w.workflow_id).isSome = true ∧
    (∀ (ctx2 : TenantContext) (wid : Nat) (r : WorkflowState),
      get_workflow db ctx2 wid = Option.some r →
        r.workflow_id = wid ∧ r.tenant_id = ctx2.tenant_id) := by
  refine ⟨?_, ?_, ?_⟩
  · rw [get_workflow, List.find?_eq_none]
    intro v hv
    simp only [Bool.and_eq_true, beq_iff_eq, not_and]
    intro hwid hten
    exact hne (hten ▸ hunique v hv hwid)
  · rw [get_workflow, List.find?_isSome]
    exact ⟨w, hmem, by simp⟩
  · intro ctx2 wid r hr
    have hp := List.find?_some hr
    simp only [Bool.and_eq_true, beq_iff_eq] at hp
    exact hp

/-- Witness for C1: a one-row table owned by tenant 1; tenant 2 reads
nothing, tenant 1 reads the row. -/
theorem tenant_isolation_get_workflow_witness :
    get_workflow [{ workflow_id := 7, tenant_id := 1, user_id := 4,
                    workflow_type := "bid_generation", current_step := "start",
                    status := "running", timeout_at := Option.none,
                    created_at := 0 }] ⟨2, 5⟩ 7 = Option.none ∧
    (get_workflow [{ workflow_id := 7, tenant_id := 1, user_id := 4,
                     workflow_type := "bid_generation", current_step := "start",
                     status := "running", timeout_at := Option.none,
                     created_at := 0 }] ⟨1, 5⟩ 7).isSome = true ∧
    (∀ (ctx2 : TenantContext) (wid : Nat) (r : WorkflowState),
      get_workflow [{ workflow_id := 7, tenant_id := 1, user_id := 4,
                      workflow_type := "bid_generation", current_step := "start",
                      status := "running", timeout_at := Option.none,
                      created_at := 0 }] ctx2 wid = Option.some r →
        r.workflow_id = wid ∧ r.tenant_id = ctx2.tenant_id) :=
  tenant_isolation_get_workflow _ ⟨2, 5⟩
    { workflow_id := 7, tenant_id := 1, user_id := 4,
      workflow_type := "bid_generation", current_step := "start",
      status := "running", timeout_at := Option.none, created_at := 0 }
    (List.mem_singleton.mpr rfl) (by decide) (by decide)

/-- C5: `store_feedback` moves the feedback-bucket memory's confidence
by `+0.1` clamped at `1.0` when the feedback value is positive, by
`-0.1` clamped at `0.0` when it is negative, and leaves it unchanged
otherwise; the claim's listed values are positive resp. negative; a
memory at `0.5` moves to `0.4` for `"negative"` and `0.6` for
`"positive"`. -/
theorem feedback_confidence_adjustment (c : ℚ) (v : String) :
    (is_positive v = true →
      store_feedback_confidence c v = min 1 (c + 1/10)) ∧
    (is_positive v = false → is_negative v = true →
      store_feedback_confidence c v = max 0 (c - 1/10)) ∧
    (is_positive v = false → is_negative v = false →
      store_feedback_confidence c v = c) ∧
    ((v = "positive" ∨ v = "approval" ∨ v = "accepted" ∨
        (strIsDigit v = true ∧ 4 ≤ strToNat v)) → is_positive v = true) ∧
    ((v = "negative" ∨ v = "rejection" ∨ v = "rejected" ∨
        (strIsDigit v = true ∧ strToNat v ≤ 2)) → is_negative v = true) ∧
    store_feedback_confidence (1/2) "negative" = 2/5 ∧
    store_feedback_confidence (1/2) "positive" = 3/5 := by
  have hneg : is_negative "negative" = true := by decide
  have hnegp : is_positive "negative" = false := by decide
  have hpos : is_positive "positive" = true := by decide
  refine ⟨?_, ?_, ?_, ?_, ?_, ?_, ?_⟩
  · intro h; simp [store_feedback_confidence, h]
  · intro h1 h2; simp [store_feedback_confidence, h1, h2]
  · intro h1 h2; simp [store_feedback_confidence, h1, h2]
  · rintro (rfl | rfl | rfl | ⟨hd, hv⟩)
    · decide
    · decide
    · decide
    · simp [is_positive, hd, hv]
  · rintro (rfl | rfl | rfl | ⟨hd, hv⟩)
    · decide
    · decide
    · decide
    · simp [is_negative, hd, hv]
  · rw [store_feedback_confidence, hnegp, hneg]
    norm_num
  · rw [store_feedback_confidence, hpos]
    norm_num

/-- Witness for C5 at `c = 1/2`, `v = "approval"`. -/
theorem feedback_confidence_adjustment_witness :
    (is_positive "approval" = true →
      store_feedback_confidence (1/2) "approval" = min 1 (1/2 + 1/10)) ∧
    (is_positive "approval" = false → is_negative "approval" = true →
      store_feedback_confidence (1/2) "approval" = max 0 (1/2 - 1/10)) ∧
    (is_positive "approval" = false → is_negative "approval" = false →
      store_feedback_confidence (1/2) "approval" = 1/2) ∧
    (("approval" = "positive" ∨ "approval" = "approval" ∨
        "approval" = "accepted" ∨
        (strIsDigit "approval" = true ∧ 4 ≤ strToNat "approval")) →
      is_positive "approval" = true) ∧
    (("approval" = "negative" ∨ "approval" = "rejection" ∨
        "approval" = "rejected" ∨
        (strIsDigit "approval" = true ∧ strToNat "approval" ≤ 2)) →
      is_negative "approval" = true) ∧
    store_feedback_confidence (1/2) "negative" = 2/5 ∧
    store_feedback_confidence (1/2) "positive" = 3/5 :=
  feedback_confidence_adjustment (1/2) "approval"

/-- C8: `create_workflow` returns a row with status `"running"`;
with a truthy `timeout_hours` the row's `timeout_at` is exactly
`created_at + timeout_hours` hours (in particular `+24h` for the
default `24`), and with `None` or `0` the row's `timeout_at` is
absent. -/
theorem workflow_timeout_on_creation (ctx : TenantContext)
    (wt istep : String) (timeout_hours : Option Int) (now : Int)
    (fid : Nat) :
    (create_workflow ctx wt istep timeout_hours now fid).status = "running" ∧
    (∀ h : Int, timeout_hours = Option.some h → h ≠ 0 →
      (create_workflow ctx wt istep timeout_hours now fid).timeout_at
        = Option.some
            ((create_workflow ctx wt istep timeout_hours now fid).created_at
              + h * 3600)) ∧
    ((timeout_hours = Option.none ∨ timeout_hours = Option.some 0) →
      (create_workflow ctx wt istep timeout_hours now fid).timeout_at
        = Option.none) ∧
    (create_workflow ctx wt istep (Option.some 24) now fid).timeout_at
      = Option.some (now + 24 * 3600) := by
  refine ⟨rfl, ?_, ?_, by simp [create_workflow]⟩
  · rintro h rfl hnz
    simp [create_workflow, hnz]
  · rintro (rfl | rfl)
    · rfl
    · simp [create_workflow]

/-- Witness for C8 with `timeout_hours = 24`, `now = 1000`. -/
theorem workflow_timeout_on_creation_witness :
    (create_workflow ⟨1, 2⟩ "bid_generation" "start" (Option.some 24)
        1000 9).status = "running" ∧
    (∀ h : Int, (Option.some 24 : Option Int) = Option.some h → h ≠ 0 →
      (create_workflow ⟨1, 2⟩ "bid_generation" "start" (Option.some 24)
          1000 9).timeout_at
        = Option.some
            ((create_workflow ⟨1, 2⟩ "bid_generation" "start"
                (Option.some 24) 1000 9).created_at + h * 3600)) ∧
    (((Option.some 24 : Option Int) = Option.none ∨
        (Option.some 24 : Option Int) = Option.some 0) →
      (create_workflow ⟨1, 2⟩ "bid_generation" "start" (Option.some 24)
          1000 9).timeout_at = Option.none) ∧
    (create_workflow ⟨1, 2⟩ "bid_generation" "start" (Option.some 24)
        1000 9).timeout_at = Option.some (1000 + 24 * 3600) :=
  workflow_timeout_on_creation ⟨1, 2⟩ "bid_generation" "start"
    (Option.some 24) 1000 9

/-- C9: `_assess_timeline_risks` returns the empty list for every
requirements dict without the Chinese key `"商业"` — in particular for
the English-keyed dicts `extract_requirements` produces — and its
delivery-risk entry appears only when `"交付时间要求"` is listed under
`"商业"`. -/
theorem timeline_risk_key_mismatch
    (requirements : List (String × List String))
    (hk : "商业" ∉ requirements.map Prod.fst) :
    assess_timeline_risks requirements = [] ∧
    (∀ reqs2 : List (String × List String), assess_timeline_risks reqs2 ≠ [] →
      "交付时间要求" ∈ ((reqs2.lookup "商业").getD [])) := by
  constructor
  · rw [assess_timeline_risks, lookup_eq_none_of_not_mem_keys _ _ hk]
    simp
  · intro reqs2 hne
    rw [assess_timeline_risks] at hne
    by_contra hmem
    rw [if_neg hmem] at hne
    exact hne rfl

/-- Witness for C9: the standard English-keyed requirements dict, with
the delivery-time requirement present under `"commercial"`, still
yields no timeline risk. -/
theorem timeline_risk_key_mismatch_witness :
    assess_timeline_risks
      [("technical", ["技术规格要求"]), ("commercial", ["交付时间要求"]),
       ("compliance", [])] = [] ∧
    (∀ reqs2 : List (String × List String), assess_timeline_risks reqs2 ≠ [] →
      "交付时间要求" ∈ ((reqs2.lookup "商业").getD [])) :=
  timeline_risk_key_mismatch
    [("technical", ["技术规格要求"]), ("commercial", ["交付时间要求"]),
     ("compliance", [])] (by decide)

/-- C6: with at least one requirement, `check_requirement_coverage`
returns `coverage_rate = covered/total`; a requirement is covered iff
its lowercased text is a substring of the lowercased JSON dump of
`content`; each category's uncovered requirements are listed in order
under `coverage_details[category].missing`; and the spec's example
`{"technical": ["A","B"]}` against content containing `"A"` but not
`"B"` yields rate `0.5` and `missing = ["B"]`. -/
theorem coverage_rate_arithmetic
    (requirements : List (String × List String)) (content : JVal)
    (h : 0 < (requirements.map (fun p => p.2.length)).sum) :
    ((check_requirement_coverage requirements content).coverage_rate
      = ((check_requirement_coverage requirements content).covered_requirements : ℚ)
          / ((check_requirement_coverage requirements content).total_requirements : ℚ)) ∧
    (∀ cat lst, (cat, lst) ∈ requirements →
      (cat, ({ total := lst.length,
               covered := (lst.filter
                   (fun r => is_requirement_covered r content)).length,
               missing := lst.filter
                   (fun r => !is_requirement_covered r content) } : CoverageDetail))
        ∈ (check_requirement_coverage requirements content).coverage_details) ∧
    (∀ req, is_requirement_covered req content
      = str_in (py_lower req) (py_lower (json_dumps content))) ∧
    (check_requirement_coverage [("technical", ["A", "B"])]
        (JVal.obj [("text", JVal.str "includes A here")])).coverage_rate = 1/2 ∧
    (check_requirement_coverage [("technical", ["A", "B"])]
        (JVal.obj [("text", JVal.str "includes A here")])).coverage_details
      = [("technical", { total := 2, covered := 1, missing := ["B"] })] := by
  refine ⟨?_, ?_, fun req => rfl, ?_, by decide⟩
  · have hm : Nat.max 1 (requirements.map (fun p => p.2.length)).sum
        = (requirements.map (fun p => p.2.length)).sum := Nat.max_eq_right h
    simp only [check_requirement_coverage, hm]
  · intro cat lst hmem
    exact List.mem_map_of_mem _ hmem
  · have hs : (List.map (fun p => p.2.covered)
        (List.map (fun p => (p.1,
          mkCoverageDetail (JVal.obj [("text", JVal.str "includes A here")]) p.2))
          [("technical", ["A", "B"])])).sum = 1 := by decide
    have ht : (List.map (fun p => p.2.length)
        [(("technical" : String), (["A", "B"] : List String))]).sum = 2 := by decide
    have hm : Nat.max 1 2 = 2 := rfl
    simp only [check_requirement_coverage, hs, ht, hm]
    norm_num

/-- Witness for C6 at the spec's own example input. -/
theorem coverage_rate_arithmetic_witness :
    ((check_requirement_coverage [("technical", ["A", "B"])]
        (JVal.obj [("text", JVal.str "includes A here")])).coverage_rate
      = ((check_requirement_coverage [("technical", ["A", "B"])]
            (JVal.obj [("text", JVal.str "includes A here")])).covered_requirements : ℚ)
          / ((check_requirement_coverage [("technical", ["A", "B"])]
                (JVal.obj [("text", JVal.str "includes A here")])).total_requirements : ℚ)) ∧
    (∀ cat lst, (cat, lst) ∈ [("technical", ["A", "B"])] →
      (cat, ({ total := lst.length,
               covered := (lst.filter (fun r => is_requirement_covered r
                   (JVal.obj [("text", JVal.str "includes A here")]))).length,
               missing := lst.filter (fun r => !is_requirement_covered r
                   (JVal.obj [("text", JVal.str "includes A here")])) } : CoverageDetail))
        ∈ (check_requirement_coverage [("technical", ["A", "B"])]
            (JVal.obj [("text", JVal.str "includes A here")])).coverage_details) ∧
    (∀ req, is_requirement_covered req (JVal.obj [("text", JVal.str "includes A here")])
      = str_in (py_lower req)
          (py_lower (json_dumps (JVal.obj [("text", JVal.str "includes A here")])))) ∧
    (check_requirement_coverage [("technical", ["A", "B"])]
        (JVal.obj [("text", JVal.str "includes A here")])).coverage_rate = 1/2 ∧
    (check_requirement_coverage [("technical", ["A", "B"])]
        (JVal.obj [("text", JVal.str "includes A here")])).coverage_details
      = [("technical", { total := 2, covered := 1, missing := ["B"] })] :=
  coverage_rate_arithmetic [("technical", ["A", "B"])]
    (JVal.obj [("text", JVal.str "includes A here")]) (by decide)

/-- C10: with zero requirements in total, `check_requirement_coverage`
returns `total_requirements = 0`, `covered_requirements = 0` and
`coverage_rate = 0.0`, and the divisor `max(1, total_requirements)` is
positive, so no division by zero can occur. -/
theorem coverage_empty_requirements
    (requirements : List (String × List String)) (content : JVal)
    (h : (requirements.map (fun p => p.2.length)).sum = 0) :
    (check_requirement_coverage requirements content).total_requirements = 0 ∧
    (check_requirement_coverage requirements content).covered_requirements = 0 ∧
    (check_requirement_coverage requirements content).coverage_rate = 0 ∧
    0 < Nat.max 1 (check_requirement_coverage requirements content).total_requirements := by
  have hall : ∀ p ∈ requirements, (p.2 : List String).length = 0 := by
    intro p hp
    exact List.sum_eq_zero_iff.mp h _ (List.mem_map_of_mem _ hp)
  have hcov : (check_requirement_coverage requirements content).covered_requirements = 0 := by
    simp only [check_requirement_coverage]
    rw [List.sum_eq_zero_iff]
    intro x hx
    simp only [List.map_map, List.mem_map, Function.comp] at hx
    obtain ⟨p, hp, rfl⟩ := hx
    have hle : (p.2.filter (fun r => is_requirement_covered r content)).length
        ≤ p.2.length := List.length_filter_le _ _
    have hz := hall p hp
    simp only [mkCoverageDetail]
    omega
  refine ⟨h, hcov, ?_, ?_⟩
  · have hr : (check_requirement_coverage requirements content).coverage_rate
        = ((check_requirement_coverage requirements content).covered_requirements : ℚ)
          / ((Nat.max 1 (requirements.map (fun p => p.2.length)).sum : ℕ) : ℚ) := rfl
    rw [hr, hcov]
    simp
  · exact lt_of_lt_of_le zero_lt_one (le_max_left _ _)

/-- Witness for C10: two categories, both with empty requirement
lists. -/
theorem coverage_empty_requirements_witness :
    (check_requirement_coverage [("technical", []), ("commercial", [])]
        (JVal.obj [])).total_requirements = 0 ∧
    (check_requirement_coverage [("technical", []), ("commercial", [])]
        (JVal.obj [])).covered_requirements = 0 ∧
    (check_requirement_coverage [("technical", []), ("commercial", [])]
        (JVal.obj [])).coverage_rate = 0 ∧
    0 < Nat.max 1 (check_requirement_coverage [("technical", []), ("commercial", [])]
        (JVal.obj [])).total_requirements :=
  coverage_empty_requirements [("technical", []), ("commercial", [])]
    (JVal.obj []) (by decide)

/-- C7: `calculate_quality_score` is the clamp to `[0,1]` of
`1 - 0.3·[¬overall_passed] - 0.1·#issues - 0.05·#warnings
+ 0.1·[structure passed] + 0.1·[terminology passed]`, and hence always
lies in `[0,1]`. -/
theorem quality_score_bounds (qc : QualityChecks) :
    calculate_quality_score qc
      = max 0 (min 1 ((1 : ℚ)
          - (if qc.overall_passed then 0 else 3/10)
          - (qc.issues.length : ℚ) * (1/10)
          - (qc.warnings.length : ℚ) * (1/20)
          + (if qc.structure_passed then 1/10 else 0)
          + (if qc.terminology_passed then 1/10 else 0))) ∧
    0 ≤ calculate_quality_score qc ∧ calculate_quality_score qc ≤ 1 := by
  refine ⟨?_, ?_, ?_⟩
  · cases hop : qc.overall_passed <;>
      cases hs : qc.structure_passed <;>
        cases ht : qc.terminology_passed <;>
          simp [calculate_quality_score, hop, hs, ht]
  · exact le_max_left 0 _
  · exact max_le (by norm_num) (min_le_left 1 _)

end BidAssistant
